import Mathlib

/-!
Verification of `map_instructor_affiliations.py` (softwaresaved workshop
extractor).  The pipeline loads a CSV roster of instructor affiliations,
aggregates per-affiliation counts, joins coordinates from a reference
geodata table, and renders a folium marker map and a gmaps heat map.

Shallow embedding conventions:
* a pandas dataframe column is a Lean `List` of its cell values;
* coordinates (decimal degrees read from the geodata spreadsheet) are `ℚ`;
* the printed diagnostics of a function are returned alongside its value;
* the gmaps global configuration (`gmaps.configure`) is explicit state.
-/

/-- One row of the reference coordinate table
(`VIEW_NAME`, `LONGITUDE`, `LATITUDE` columns selected in `main`). -/
structure CoordRow where
  VIEW_NAME : String
  LONGITUDE : ℚ
  LATITUDE : ℚ
deriving DecidableEq

/-- One row of the aggregated table produced by `instructors_per_affiliation`:
a distinct affiliation together with its occurrence count. -/
structure AffRow where
  affiliation : String
  count : Nat
deriving DecidableEq

/-- Embedding of `instructors_per_affiliation(df)`:
`pd.DataFrame({'count': df.groupby(['affiliation']).size()}).reset_index()`.
The input is the (cleaned, all non-null) `affiliation` column; pandas groups
by the distinct values, sorted ascending, and counts each group. -/
def instructors_per_affiliation (df : List String) : List AffRow :=
  let keys := df.dedup.mergeSort (fun a b => decide (a ≤ b))
  keys.map (fun k => { affiliation := k, count := df.count k })

/-- The affiliation keys of the aggregated table are a permutation of the
deduplicated input column. -/
theorem instructors_per_affiliation_keys_perm (df : List String) :
    ((instructors_per_affiliation df).map (fun r => r.affiliation)).Perm df.dedup := by
  unfold instructors_per_affiliation
  simp only [List.map_map]
  have h : ((fun r : AffRow => r.affiliation) ∘
      fun k => AffRow.mk k (df.count k)) = id := rfl
  rw [h, List.map_id]
  exact List.mergeSort_perm df.dedup _

/-- C1: for every cleaned input column (all rows non-null), the aggregated
table of `instructors_per_affiliation` has exactly one row per distinct
affiliation value — the keys are duplicate-free and are exactly the values
occurring in the input — and the counts sum to the number of input rows. -/
theorem instructors_per_affiliation_correct (df : List String) :
    ((instructors_per_affiliation df).map (fun r => r.affiliation)).Nodup ∧
    (∀ a, a ∈ (instructors_per_affiliation df).map (fun r => r.affiliation) ↔ a ∈ df) ∧
    ((instructors_per_affiliation df).map (fun r => r.count)).sum = df.length := by
  have hperm := instructors_per_affiliation_keys_perm df
  refine ⟨hperm.nodup_iff.mpr df.nodup_dedup, fun a => ?_, ?_⟩
  · rw [hperm.mem_iff, List.mem_dedup]
  · unfold instructors_per_affiliation
    simp only [List.map_map]
    have h : ((fun r : AffRow => r.count) ∘
        fun k => AffRow.mk k (df.count k)) = fun k => df.count k := rfl
    rw [h]
    have hp : (df.dedup.mergeSort (fun a b => decide (a ≤ b))).map
        (fun k => df.count k) |>.Perm (df.dedup.map fun k => df.count k) :=
      (List.mergeSort_perm df.dedup _).map _
    rw [hp.sum_eq]
    exact List.sum_map_count_dedup_eq_length df

/-- A folium `CircleMarker` as constructed in `generate_map`:
fixed radius 5, location `[lat, long]`, popup label, orange colour. -/
structure Marker where
  radius : Nat
  location : ℚ × ℚ
  popup : String
  color : String
  fill : Bool
  fill_color : String
deriving DecidableEq

/-- The folium `Map` object: centre location, zoom level, tile set and the
markers added to it, in insertion order. -/
structure FoliumMap where
  location : ℚ × ℚ
  zoom_start : Nat
  tiles : String
  markers : List Marker
deriving DecidableEq

/-- The diagnostic printed by `generate_map` for an affiliation with no
matching reference row (the argument of the `print` call, lines 53-54). -/
def skip_diagnostic (aff : String) : String :=
  "For affiliation \"" ++ aff ++
    "\" we either have not got coordinates or it is not the official name of an UK academic institution. Skipping it ...\n"

/-- The loop body of `generate_map` (lines 40-54): filter the reference table
on `VIEW_NAME ==` the affiliation, take the first longitude and latitude if
both series are non-empty and add a `CircleMarker`, otherwise print the
skip diagnostic.  The accumulator carries the map and the printed lines. -/
def generate_map_step (institutions_coords_df : List CoordRow)
    (acc : FoliumMap × List String) (row : AffRow) : FoliumMap × List String :=
  let long_coords := ((institutions_coords_df.filter
      (fun c => c.VIEW_NAME == row.affiliation)).map (fun c => c.LONGITUDE))
  let lat_coords := ((institutions_coords_df.filter
      (fun c => c.VIEW_NAME == row.affiliation)).map (fun c => c.LATITUDE))
  let label := row.affiliation ++ ": " ++ toString row.count
  match long_coords.head?, lat_coords.head? with
  | some long, some lat =>
      ({ acc.1 with markers := acc.1.markers ++
          [{ radius := 5, location := (lat, long), popup := label,
             color := "#ff6600", fill := true, fill_color := "#ff6600" }] }, acc.2)
  | _, _ => (acc.1, acc.2 ++ [skip_diagnostic row.affiliation])

/-- Embedding of `generate_map(instructors_affiliations, institutions_coords_df, center)`:
a folium map centred at `center` with zoom 6 on `cartodbpositron` tiles,
one circle marker added per matched row in iteration order; returns the map
together with the list of printed skip diagnostics. -/
def generate_map (instructors_affiliations : List AffRow)
    (institutions_coords_df : List CoordRow) (center : ℚ × ℚ) :
    FoliumMap × List String :=
  let maps : FoliumMap :=
    { location := (center.1, center.2), zoom_start := 6,
      tiles := "cartodbpositron", markers := [] }
  instructors_affiliations.foldl (generate_map_step institutions_coords_df) (maps, [])

/-- The coordinate lookup shared by both renderers (lines 41-42 and 64-65):
first latitude and first longitude of the reference rows whose `VIEW_NAME`
equals the affiliation, or `none` when there is no such row. -/
def lookup_coords (institutions_coords_df : List CoordRow) (aff : String) :
    Option (ℚ × ℚ) :=
  match ((institutions_coords_df.filter
          (fun c => c.VIEW_NAME == aff)).map (fun c => c.LATITUDE)).head?,
        ((institutions_coords_df.filter
          (fun c => c.VIEW_NAME == aff)).map (fun c => c.LONGITUDE)).head? with
  | some lat, some long => some (lat, long)
  | _, _ => none

/-- The marker `generate_map` builds for a row, `none` when unmatched. -/
def marker_for (institutions_coords_df : List CoordRow) (row : AffRow) :
    Option Marker :=
  (lookup_coords institutions_coords_df row.affiliation).map (fun loc =>
    { radius := 5, location := loc,
      popup := row.affiliation ++ ": " ++ toString row.count,
      color := "#ff6600", fill := true, fill_color := "#ff6600" })

/-- The diagnostic `generate_map` prints for a row, `none` when matched. -/
def unmatched_diag (institutions_coords_df : List CoordRow) (row : AffRow) :
    Option String :=
  match lookup_coords institutions_coords_df row.affiliation with
  | some _ => none
  | none => some (skip_diagnostic row.affiliation)

theorem generate_map_step_eq (coords : List CoordRow)
    (acc : FoliumMap × List String) (row : AffRow) :
    generate_map_step coords acc row =
      match marker_for coords row with
      | some mk => ({ acc.1 with markers := acc.1.markers ++ [mk] }, acc.2)
      | none => (acc.1, acc.2 ++ [skip_diagnostic row.affiliation]) := by
  simp only [generate_map_step, marker_for, lookup_coords]
  rcases h : coords.filter (fun c => c.VIEW_NAME == row.affiliation) with _ | ⟨r, rest⟩ <;>
    simp [h]

theorem generate_map_foldl (coords : List CoordRow) (tbl : List AffRow)
    (m : FoliumMap) (d : List String) :
    tbl.foldl (generate_map_step coords) (m, d) =
      ({ m with markers := m.markers ++ tbl.filterMap (marker_for coords) },
        d ++ tbl.filterMap (unmatched_diag coords)) := by
  induction tbl generalizing m d with
  | nil => simp
  | cons row rest ih =>
    rw [List.foldl_cons, generate_map_step_eq]
    rcases h : marker_for coords row with _ | mk
    · have hd : unmatched_diag coords row = some (skip_diagnostic row.affiliation) := by
        simp only [unmatched_diag, marker_for] at h ⊢
        rcases hl : lookup_coords coords row.affiliation with _ | loc
        · rfl
        · rw [hl] at h; simp at h
      simp only [ih, List.filterMap_cons, h, hd]
      simp
    · have hd : unmatched_diag coords row = none := by
        simp only [unmatched_diag, marker_for] at h ⊢
        rcases hl : lookup_coords coords row.affiliation with _ | loc
        · rw [hl] at h; simp at h
        · rfl
      simp only [ih, List.filterMap_cons, h, hd]
      simp

/-- Closed form of `generate_map`: markers are exactly the matched rows in
order, diagnostics exactly the unmatched rows in order. -/
theorem generate_map_eq (tbl : List AffRow) (coords : List CoordRow)
    (center : ℚ × ℚ) :
    generate_map tbl coords center =
      ({ location := center, zoom_start := 6, tiles := "cartodbpositron",
         markers := tbl.filterMap (marker_for coords) },
        tbl.filterMap (unmatched_diag coords)) := by
  unfold generate_map
  rw [generate_map_foldl]
  simp

/-- The gmaps module-level configuration written by `gmaps.configure`. -/
structure GmapsState where
  api_key : Option String
deriving DecidableEq

/-- The gmaps figure returned by `generate_heat_map`: the layers added to
it, a heat-map layer being its list of `(lat, long)` points. -/
structure GmapsFigure where
  layers : List (List (ℚ × ℚ))
deriving DecidableEq

/-- Modelled from the spec: `gmaps.heatmap_layer` is library code absent from
`src/`; per the spec the rendering stage fails when there are no matched
coordinate points, so the layer constructor rejects an empty location list
and otherwise builds the density layer from exactly the given points. -/
def heatmap_layer (locations : List (ℚ × ℚ)) : Except Unit (List (ℚ × ℚ)) :=
  if locations = [] then Except.error () else Except.ok locations

/-- The loop body of `generate_heat_map` (lines 63-68): same filter as the
marker loop; on a match append the first latitude to `lat_list` and the
first longitude to `long_list`, otherwise skip the row silently. -/
def heat_lists_step (institutions_coords_df : List CoordRow)
    (acc : List ℚ × List ℚ) (row : AffRow) : List ℚ × List ℚ :=
  let long_coords := ((institutions_coords_df.filter
      (fun c => c.VIEW_NAME == row.affiliation)).map (fun c => c.LONGITUDE))
  let lat_coords := ((institutions_coords_df.filter
      (fun c => c.VIEW_NAME == row.affiliation)).map (fun c => c.LATITUDE))
  match long_coords.head?, lat_coords.head? with
  | some long, some lat => (acc.1 ++ [lat], acc.2 ++ [long])
  | _, _ => acc

/-- The `(lat_list, long_list)` pair accumulated by `generate_heat_map`. -/
def heat_lists (instructors_affiliations : List AffRow)
    (institutions_coords_df : List CoordRow) : List ℚ × List ℚ :=
  instructors_affiliations.foldl (heat_lists_step institutions_coords_df) ([], [])

/-- The list `locations = zip(lat_list, long_list)` (line 70). -/
def heat_points (instructors_affiliations : List AffRow)
    (institutions_coords_df : List CoordRow) : List (ℚ × ℚ) :=
  (heat_lists instructors_affiliations institutions_coords_df).1.zip
    (heat_lists instructors_affiliations institutions_coords_df).2

/-- Embedding of `generate_heat_map(instructors_affiliations, institutions_coords_df)`:
configures the global gmaps state with the api key (line 59), builds the
location lists, and returns a figure holding one heat-map layer over the
matched locations, together with the updated global state. -/
def generate_heat_map (instructors_affiliations : List AffRow)
    (institutions_coords_df : List CoordRow) (api_key : String)
    (st : GmapsState) : Except Unit GmapsFigure × GmapsState :=
  let st1 : GmapsState := { api_key := some api_key }
  let locations := heat_points instructors_affiliations institutions_coords_df
  match heatmap_layer locations with
  | Except.error e => (Except.error e, st1)
  | Except.ok layer => (Except.ok { layers := [layer] }, st1)

theorem heat_lists_step_eq (coords : List CoordRow) (acc : List ℚ × List ℚ)
    (row : AffRow) :
    heat_lists_step coords acc row =
      match lookup_coords coords row.affiliation with
      | some loc => (acc.1 ++ [loc.1], acc.2 ++ [loc.2])
      | none => acc := by
  simp only [heat_lists_step, lookup_coords]
  rcases h : coords.filter (fun c => c.VIEW_NAME == row.affiliation) with _ | ⟨r, rest⟩ <;>
    simp [h]

theorem heat_lists_foldl (coords : List CoordRow) (tbl : List AffRow)
    (a b : List ℚ) :
    tbl.foldl (heat_lists_step coords) (a, b) =
      (a ++ (tbl.filterMap (fun r => lookup_coords coords r.affiliation)).map Prod.fst,
        b ++ (tbl.filterMap (fun r => lookup_coords coords r.affiliation)).map Prod.snd) := by
  induction tbl generalizing a b with
  | nil => simp
  | cons row rest ih =>
    rw [List.foldl_cons, heat_lists_step_eq]
    rcases h : lookup_coords coords row.affiliation with _ | loc
    · simp only [List.filterMap_cons, h, ih]
    · simp only [List.filterMap_cons, h, ih]
      simp

/-- Closed form of the heat-map point list: one `(lat, long)` point per
matched row of the aggregated table, in iteration order. -/
theorem heat_points_eq (tbl : List AffRow) (coords : List CoordRow) :
    heat_points tbl coords =
      tbl.filterMap (fun r => lookup_coords coords r.affiliation) := by
  unfold heat_points heat_lists
  rw [heat_lists_foldl]
  simp only [List.nil_append, List.zip_map']
  have h : (fun a : ℚ × ℚ => (a.1, a.2)) = id := rfl
  rw [h, List.map_id]

theorem length_filterMap_isSome {α β : Type} (f : α → Option β) (l : List α) :
    (l.filterMap f).length = (l.filter (fun x => (f x).isSome)).length := by
  induction l with
  | nil => rfl
  | cons x xs ih =>
    simp only [List.filterMap_cons, List.filter_cons]
    rcases h : f x with _ | y <;> simp [h, ih]

theorem filterMap_erase_of_none {α β : Type} [DecidableEq α] (f : α → Option β)
    (l : List α) (a : α) (h : f a = none) :
    (l.erase a).filterMap f = l.filterMap f := by
  induction l with
  | nil => rfl
  | cons x xs ih =>
    rw [List.erase_cons]
    by_cases hx : x = a
    · subst hx
      simp only [beq_self_eq_true, if_pos, List.filterMap_cons, h]
    · have hbeq : (x == a) = false := beq_eq_false_iff_ne.mpr hx
      rw [hbeq]
      simp only [Bool.false_eq_true, if_false, List.filterMap_cons]
      rcases hfx : f x with _ | y <;> simp [hfx, ih]

theorem skip_diagnostic_inj (a b : String)
    (h : skip_diagnostic a = skip_diagnostic b) : a = b := by
  unfold skip_diagnostic at h
  have h2 := congrArg String.data h
  simp only [String.data_append, List.append_assoc] at h2
  exact String.ext (List.append_cancel_right (List.append_cancel_left h2))

theorem lookup_coords_eq_none_of_unmatched (coords : List CoordRow)
    (aff : String) (h : ∀ c ∈ coords, c.VIEW_NAME ≠ aff) :
    lookup_coords coords aff = none := by
  have hfil : coords.filter (fun c => c.VIEW_NAME == aff) = [] :=
    List.filter_eq_nil_iff.mpr (fun c hc => by simpa using h c hc)
  simp [lookup_coords, hfil]

theorem count_diag_filterMap_eq_zero (coords : List CoordRow)
    (l : List AffRow) (a : String)
    (ha : a ∉ l.map (fun r => r.affiliation)) :
    (l.filterMap (unmatched_diag coords)).count (skip_diagnostic a) = 0 := by
  induction l with
  | nil => rfl
  | cons r rest ih =>
    simp only [List.map_cons, List.mem_cons, not_or] at ha
    simp only [List.filterMap_cons]
    rcases hd : unmatched_diag coords r with _ | d
    · exact ih ha.2
    · have hda : d = skip_diagnostic r.affiliation := by
        simp only [unmatched_diag] at hd
        rcases hl : lookup_coords coords r.affiliation with _ | loc <;>
          rw [hl] at hd <;> simp at hd
        exact hd.symm
      subst hda
      rw [List.count_cons]
      have hne : ¬(skip_diagnostic r.affiliation = skip_diagnostic a) :=
        fun hc => ha.1 ((skip_diagnostic_inj _ _ hc).symm)
      simp only [beq_iff_eq, hne, if_false]
      simpa using ih ha.2

/-- A small concrete reference coordinate table used in witnesses. -/
def demo_coords : List CoordRow :=
  [{ VIEW_NAME := "University of A", LONGITUDE := -1, LATITUDE := 51 },
   { VIEW_NAME := "University of B", LONGITUDE := -2, LATITUDE := 52 }]

/-- A small concrete aggregated table used in witnesses. -/
def demo_tbl : List AffRow :=
  [{ affiliation := "University of A", count := 1 },
   { affiliation := "University of B", count := 2 }]

/-- The same affiliations as `demo_tbl` with different counts. -/
def demo_tbl2 : List AffRow :=
  [{ affiliation := "University of A", count := 7 },
   { affiliation := "University of B", count := 9 }]

/-- Aggregated table with an affiliation absent from `demo_coords`. -/
def demo_tbl_unmatched : List AffRow :=
  [{ affiliation := "Nowhere Institute", count := 4 },
   { affiliation := "University of A", count := 1 }]

/-- The gmaps module state before `gmaps.configure` has run. -/
def gmaps_initial : GmapsState := { api_key := none }


/-- C2: an aggregated row whose affiliation matches no reference row is
retained without a coordinate — it contributes no marker, so erasing it
from the table leaves the marker map unchanged — exactly one skip
diagnostic naming that affiliation is printed, and processing continues:
every matched row still receives its labelled marker (the renderer is a
total function, so no exception is raised); the heat map likewise gets no
point from the row. -/
theorem generate_map_unmatched_row (tbl : List AffRow) (coords : List CoordRow)
    (center : ℚ × ℚ) (row : AffRow) (hmem : row ∈ tbl)
    (hnodup : (tbl.map (fun r => r.affiliation)).Nodup)
    (hunmatched : ∀ c ∈ coords, c.VIEW_NAME ≠ row.affiliation) :
    (generate_map tbl coords center).2.count (skip_diagnostic row.affiliation) = 1 ∧
    (generate_map tbl coords center).1.markers =
      (generate_map (tbl.erase row) coords center).1.markers ∧
    heat_points tbl coords = heat_points (tbl.erase row) coords ∧
    (∀ r2 ∈ tbl, ∀ loc, lookup_coords coords r2.affiliation = some loc →
      ({ radius := 5, location := loc,
         popup := r2.affiliation ++ ": " ++ toString r2.count,
         color := "#ff6600", fill := true, fill_color := "#ff6600" } : Marker) ∈
        (generate_map tbl coords center).1.markers) := by
  have hnone := lookup_coords_eq_none_of_unmatched coords row.affiliation hunmatched
  refine ⟨?_, ?_, ?_, ?_⟩
  · obtain ⟨l1, l2, rfl⟩ := List.append_of_mem hmem
    rw [List.map_append, List.map_cons] at hnodup
    have hmid : (row.affiliation ::
        (l1.map (fun r => r.affiliation) ++ l2.map (fun r => r.affiliation))).Nodup :=
      List.nodup_middle.mp hnodup
    rw [List.nodup_cons, List.mem_append, not_or] at hmid
    obtain ⟨⟨h1, h2⟩, _⟩ := hmid
    rw [generate_map_eq]
    have hud : unmatched_diag coords row = some (skip_diagnostic row.affiliation) := by
      simp [unmatched_diag, hnone]
    simp only [List.filterMap_append, List.filterMap_cons, hud, List.count_append,
      List.count_cons, count_diag_filterMap_eq_zero coords l1 row.affiliation h1,
      count_diag_filterMap_eq_zero coords l2 row.affiliation h2]
    simp
  · rw [generate_map_eq, generate_map_eq]
    have hrow : marker_for coords row = none := by simp [marker_for, hnone]
    exact (filterMap_erase_of_none (marker_for coords) tbl row hrow).symm
  · rw [heat_points_eq, heat_points_eq]
    exact (filterMap_erase_of_none
      (fun r => lookup_coords coords r.affiliation) tbl row hnone).symm
  · intro r2 h2 loc hloc
    rw [generate_map_eq]
    exact List.mem_filterMap.mpr ⟨r2, h2, by simp [marker_for, hloc]⟩

/-- C2 witness: concrete run with the unmatched row `Nowhere Institute`. -/
theorem generate_map_unmatched_row_witness :
    (generate_map demo_tbl_unmatched demo_coords (0, 0)).2.count
        (skip_diagnostic "Nowhere Institute") = 1 ∧
    (generate_map demo_tbl_unmatched demo_coords (0, 0)).1.markers =
      (generate_map (demo_tbl_unmatched.erase
          { affiliation := "Nowhere Institute", count := 4 })
        demo_coords (0, 0)).1.markers ∧
    heat_points demo_tbl_unmatched demo_coords =
      heat_points (demo_tbl_unmatched.erase
        { affiliation := "Nowhere Institute", count := 4 }) demo_coords ∧
    (∀ r2 ∈ demo_tbl_unmatched, ∀ loc,
        lookup_coords demo_coords r2.affiliation = some loc →
      ({ radius := 5, location := loc,
         popup := r2.affiliation ++ ": " ++ toString r2.count,
         color := "#ff6600", fill := true, fill_color := "#ff6600" } : Marker) ∈
        (generate_map demo_tbl_unmatched demo_coords (0, 0)).1.markers) :=
  generate_map_unmatched_row demo_tbl_unmatched demo_coords (0, 0)
    { affiliation := "Nowhere Institute", count := 4 }
    (by decide) (by decide) (by decide)

/-- C3: the marker map contains exactly one circular marker per matched row
of the geo-resolved table — positioned at the matched coordinate and
labelled with the string `<affiliation>: <count>` — and unmatched rows
contribute no marker: the marker list is exactly the image of the matched
rows in order, and the marker count is the number of matched rows. -/
theorem generate_map_marker_spec (tbl : List AffRow) (coords : List CoordRow)
    (center : ℚ × ℚ) :
    (generate_map tbl coords center).1.markers =
      tbl.filterMap (fun r => (lookup_coords coords r.affiliation).map (fun loc =>
        { radius := 5, location := loc,
          popup := r.affiliation ++ ": " ++ toString r.count,
          color := "#ff6600", fill := true, fill_color := "#ff6600" })) ∧
    (generate_map tbl coords center).1.markers.length =
      (tbl.filter (fun r => (lookup_coords coords r.affiliation).isSome)).length := by
  rw [generate_map_eq]
  refine ⟨rfl, ?_⟩
  show (tbl.filterMap (marker_for coords)).length =
      (tbl.filter (fun r => (lookup_coords coords r.affiliation).isSome)).length
  rw [length_filterMap_isSome]
  congr 1
  apply List.filter_congr
  intro r _
  simp only [marker_for]
  rcases h : lookup_coords coords r.affiliation with _ | loc <;> simp [h]

/-- C4: every heat map the renderer succeeds in building has exactly one
density layer, whose points are exactly one `(lat, long)` per matched row
of the geo-resolved table (unmatched rows contribute nothing), and the
point list is independent of the count column: tables with the same
affiliation column yield the same points, so a row contributes one point
regardless of its count. -/
theorem generate_heat_map_point_spec (tbl tbl2 : List AffRow)
    (coords : List CoordRow) (key : String) (st : GmapsState)
    (fig : GmapsFigure)
    (hfig : (generate_heat_map tbl coords key st).1 = Except.ok fig)
    (hsame : tbl.map (fun r => r.affiliation) = tbl2.map (fun r => r.affiliation)) :
    fig.layers = [tbl.filterMap (fun r => lookup_coords coords r.affiliation)] ∧
    (tbl.filterMap (fun r => lookup_coords coords r.affiliation)).length =
      (tbl.filter (fun r => (lookup_coords coords r.affiliation).isSome)).length ∧
    heat_points tbl coords = heat_points tbl2 coords := by
  refine ⟨?_, length_filterMap_isSome _ tbl, ?_⟩
  · simp only [generate_heat_map, heatmap_layer] at hfig
    by_cases hemp : heat_points tbl coords = []
    · rw [if_pos hemp] at hfig
      simp at hfig
    · rw [if_neg hemp] at hfig
      simp only [Except.ok.injEq] at hfig
      rw [← hfig, heat_points_eq]
  · rw [heat_points_eq, heat_points_eq]
    have h1 : (fun r : AffRow => lookup_coords coords r.affiliation) =
        (lookup_coords coords) ∘ (fun r : AffRow => r.affiliation) := rfl
    rw [h1, ← List.filterMap_map, ← List.filterMap_map, hsame]

/-- C4 witness: concrete heat map over `demo_tbl`, compared with
`demo_tbl2` which differs only in the counts. -/
theorem generate_heat_map_point_spec_witness :
    (GmapsFigure.mk [[((51 : ℚ), (-1 : ℚ)), ((52 : ℚ), (-2 : ℚ))]]).layers =
      [demo_tbl.filterMap (fun r => lookup_coords demo_coords r.affiliation)] ∧
    (demo_tbl.filterMap (fun r => lookup_coords demo_coords r.affiliation)).length =
      (demo_tbl.filter (fun r =>
        (lookup_coords demo_coords r.affiliation).isSome)).length ∧
    heat_points demo_tbl demo_coords = heat_points demo_tbl2 demo_coords :=
  generate_heat_map_point_spec demo_tbl demo_tbl2 demo_coords "apikey"
    gmaps_initial (GmapsFigure.mk [[((51 : ℚ), (-1 : ℚ)), ((52 : ℚ), (-2 : ℚ))]])
    (by rfl) (by rfl)

/-- C5 counterexample: in a concrete run two matched rows with the distinct
counts 1 and 2 both receive a marker of radius 5 — `folium.CircleMarker` is
always constructed with `radius = 5` (line 46), so marker size does not
encode the count and rows with different counts do not get differently
sized markers. -/
theorem generate_map_radius_ignores_count :
    (demo_tbl.map (fun r => r.count) = [1, 2]) ∧
    ((generate_map demo_tbl demo_coords (0, 0)).1.markers.map
      (fun m => m.radius)) = [5, 5] := by
  constructor <;> rfl

/-- C5 amended: every marker on the marker map has the fixed radius 5
whatever the row count; the count appears only in the popup label. -/
theorem generate_map_radius_const (tbl : List AffRow) (coords : List CoordRow)
    (center : ℚ × ℚ) (m : Marker)
    (hm : m ∈ (generate_map tbl coords center).1.markers) : m.radius = 5 := by
  rw [generate_map_eq] at hm
  have hm2 : m ∈ tbl.filterMap (marker_for coords) := hm
  obtain ⟨r, _, hr⟩ := List.mem_filterMap.mp hm2
  simp only [marker_for] at hr
  rcases hl : lookup_coords coords r.affiliation with _ | loc <;> rw [hl] at hr
  · simp at hr
  · rw [Option.map_some'] at hr
    injection hr with h
    rw [← h]

/-- C5 amended witness: the first marker of the concrete run has radius 5. -/
theorem generate_map_radius_const_witness :
    ({ radius := 5, location := ((51 : ℚ), (-1 : ℚ)),
       popup := "University of A: 1", color := "#ff6600", fill := true,
       fill_color := "#ff6600" } : Marker).radius = 5 :=
  generate_map_radius_const demo_tbl demo_coords (0, 0) _ (by decide)

/-- Lines 122-123 of `main`: run `generate_map` then `generate_heat_map`,
threading the process-global gmaps state (folium touches none of it). -/
def run_renderers (tbl : List AffRow) (coords : List CoordRow)
    (center : ℚ × ℚ) (key : String) (st : GmapsState) :
    (FoliumMap × List String) × Except Unit GmapsFigure × GmapsState :=
  let m := generate_map tbl coords center
  let hm := generate_heat_map tbl coords key st
  (m, hm.1, hm.2)

/-- C9: both renderers are deterministic functions of the geo-resolved
table, the reference coordinates and the centre, and share no mutable
state: their artifacts do not depend on the incoming gmaps global state,
the only global write is `generate_heat_map` setting the api key — a state
the marker map never reads — and the marker map artifact is unchanged by
running the heat map first. -/
theorem renderers_deterministic_no_shared_state (tbl : List AffRow)
    (coords : List CoordRow) (center : ℚ × ℚ) (key : String)
    (s1 s2 : GmapsState) :
    (run_renderers tbl coords center key s1).1 =
      (run_renderers tbl coords center key s2).1 ∧
    (run_renderers tbl coords center key s1).2.1 =
      (run_renderers tbl coords center key s2).2.1 ∧
    (run_renderers tbl coords center key s1).2.2 =
      { api_key := some key } ∧
    (run_renderers tbl coords center key
        (run_renderers tbl coords center key s1).2.2).1 =
      generate_map tbl coords center := by
  refine ⟨rfl, rfl, ?_, rfl⟩
  simp only [run_renderers, generate_heat_map]
  rcases h : heatmap_layer (heat_points tbl coords) with _ | layer <;> simp [h]

/-- Taking `iloc[0]` on the filtered series is the first matching reference row in
table order, i.e. `find?`. -/
theorem lookup_coords_eq_find (coords : List CoordRow) (aff : String)
    (r : CoordRow)
    (hfind : coords.find? (fun row => row.VIEW_NAME == aff) = some r) :
    lookup_coords coords aff = some (r.LATITUDE, r.LONGITUDE) := by
  have hhead : (coords.filter (fun c => c.VIEW_NAME == aff)).head? = some r := by
    rw [List.filter_head?]
    exact hfind
  simp [lookup_coords, hhead]

/-- A reference table with a duplicated canonical name (as can arise when
the supplemental non-academic set is appended without deduplication). -/
def demo_dup_coords : List CoordRow :=
  [{ VIEW_NAME := "University of A", LONGITUDE := -1, LATITUDE := 51 },
   { VIEW_NAME := "University of A", LONGITUDE := -9, LATITUDE := 99 }]

/-- C10: when several reference rows share the same `VIEW_NAME`, both the
marker map and the heat map use the coordinates of the first matching row
in table order, and they agree on that coordinate: a singleton table gets
its single marker there and its single heat point there, and in any table
containing the row the corresponding marker and heat point appear. -/
theorem duplicate_viewname_first_match (coords : List CoordRow) (aff : String)
    (c : Nat) (center : ℚ × ℚ) (r : CoordRow)
    (hfind : coords.find? (fun row => row.VIEW_NAME == aff) = some r) :
    ((generate_map [{ affiliation := aff, count := c }] coords center).1.markers.map
        (fun m => m.location)) = [(r.LATITUDE, r.LONGITUDE)] ∧
    heat_points [{ affiliation := aff, count := c }] coords =
      [(r.LATITUDE, r.LONGITUDE)] ∧
    (∀ tbl : List AffRow, { affiliation := aff, count := c } ∈ tbl →
      ({ radius := 5, location := (r.LATITUDE, r.LONGITUDE),
         popup := aff ++ ": " ++ toString c,
         color := "#ff6600", fill := true, fill_color := "#ff6600" } : Marker) ∈
          (generate_map tbl coords center).1.markers ∧
      (r.LATITUDE, r.LONGITUDE) ∈ heat_points tbl coords) := by
  have hl := lookup_coords_eq_find coords aff r hfind
  refine ⟨?_, ?_, ?_⟩
  · rw [generate_map_eq]
    show (List.filterMap (marker_for coords) [{ affiliation := aff, count := c }]).map
      (fun m => m.location) = [(r.LATITUDE, r.LONGITUDE)]
    simp [marker_for, hl]
  · rw [heat_points_eq]
    simp [hl]
  · intro tbl hmem
    constructor
    · rw [generate_map_eq]
      exact List.mem_filterMap.mpr ⟨_, hmem, by simp [marker_for, hl]⟩
    · rw [heat_points_eq]
      exact List.mem_filterMap.mpr ⟨_, hmem, by simp [hl]⟩

/-- C10 witness: with the duplicated `University of A` rows of
`demo_dup_coords`, both renderers place the point at the first row
`(lat 51, long -1)`, not at the second. -/
theorem duplicate_viewname_first_match_witness :
    ((generate_map [{ affiliation := "University of A", count := 3 }]
        demo_dup_coords (0, 0)).1.markers.map (fun m => m.location)) =
      [((51 : ℚ), (-1 : ℚ))] ∧
    heat_points [{ affiliation := "University of A", count := 3 }]
        demo_dup_coords = [((51 : ℚ), (-1 : ℚ))] ∧
    (∀ tbl : List AffRow, { affiliation := "University of A", count := 3 } ∈ tbl →
      ({ radius := 5, location := ((51 : ℚ), (-1 : ℚ)),
         popup := "University of A" ++ ": " ++ toString 3,
         color := "#ff6600", fill := true, fill_color := "#ff6600" } : Marker) ∈
          (generate_map tbl demo_dup_coords (0, 0)).1.markers ∧
      (((51 : ℚ), (-1 : ℚ))) ∈ heat_points tbl demo_dup_coords) :=
  duplicate_viewname_first_match demo_dup_coords "University of A" 3 (0, 0)
    { VIEW_NAME := "University of A", LONGITUDE := -1, LATITUDE := 51 }
    (by rfl)

/-- The constant `INSTRUCTORS_DATA_DIR` (line 19); the run-directory prefix
`CURRENT_DIR` is environment-dependent and elided. -/
def INSTRUCTORS_DATA_DIR : String := "data/instructors/"

/-- The constant `UK_INSTITUTIONS_GEODATA_FILE` (line 20), same prefix elided. -/
def UK_INSTITUTIONS_GEODATA_FILE : String :=
  "lib/UK-academic-institutions-geodata.xlsx"

/-- Modelled from the spec: `helper.get_center` lives in `lib/helper.py`,
which is not under `src/`; per the spec it is the arithmetic mean of the
latitude and of the longitude over the full reference coordinate set. -/
def get_center (coords : List CoordRow) : ℚ × ℚ :=
  ((coords.map (fun c => c.LATITUDE)).sum / coords.length,
    (coords.map (fun c => c.LONGITUDE)).sum / coords.length)

/-- Modelled from the spec: `helper.drop_null_values_from_columns` lives in
`lib/helper.py`, not under `src/`; per the spec it removes the rows whose
`affiliation` cell is missing and keeps the survivors in order. -/
def drop_null_values_from_columns (rows : List (Option String)) : List String :=
  rows.filterMap id

/-- The function `os.path.basename`: the part of the path after the last slash. -/
def basename (path : String) : String :=
  (path.splitOn "/").getLastD path

/-- Line 99: strip surrounding whitespace and remove a trailing `.csv`
(an end-anchored `re.sub`). -/
def strip_csv_ext (s : String) : String :=
  let t := s.trim
  if t.endsWith ".csv" then t.dropRight 4 else t

/-- Line 82. -/
def mapping_msg : String :=
  "Mapping instructors affiliation geocoordinates on an interactive map ..."

/-- Line 86. -/
def arg_file_msg (f : String) : String :=
  "The CSV spreadsheet with Carpentry instructors to be mapped: " ++ f

/-- Line 88. -/
def locate_msg : String :=
  "Trying to locate the latest CSV spreadsheet with Carpentry instructors to map in "
    ++ INSTRUCTORS_DATA_DIR ++ "\n"

/-- Line 93. -/
def no_csv_msg : String :=
  "No CSV file with Carpentry instructors found in " ++ INSTRUCTORS_DATA_DIR
    ++ ". Exiting ..."

/-- Line 100. -/
def analyse_msg (name : String) : String :=
  "CSV file with Carpentry instructors to analyse " ++ name

/-- Lines 106-107; the possessive apostrophe of the source text is elided. -/
def geodata_error_msg : String :=
  "An error occurred while reading the UK academic institutions geodata file "
    ++ UK_INSTITUTIONS_GEODATA_FILE

/-- Line 111. -/
def generating_msg : String :=
  "Generating a map of instructors per affiliation ..."

/-- Line 135. -/
def map_error_msg : String :=
  "An error occurred while creating the map of instructors per affiliation ..."

/-- Externally observable effects of one `main` run, in program order. -/
inductive Event where
  | printed (s : String)
  | readInstructors (path : String)
  | savedMapHtml (path : String)
  | savedHeatmapHtml (path : String)
  | uploadedMap (path : String)
deriving DecidableEq

/-- How the process ends: a normal return, `sys.exit(code)`, or an uncaught
IndexError (traceback, no report). -/
inductive PyOutcome where
  | finished
  | sysExit (code : Nat)
  | uncaughtIndexError
deriving DecidableEq

/-- The external world of one run: the command-line arguments, the glob
result (already sorted by `os.path.getctime`, line 90), the outcomes of
reading the geodata spreadsheet and the instructors CSV (the affiliation
column, with missing cells), the affiliation normalisation
(`helper.fix_UK_academic_institutions_names` — per the spec a pure, total,
column-wise map, not under `src/`), the supplemental non-academic
coordinates, the configured api key and the upload outcome. -/
structure PyEnv where
  instructors_file_arg : Option String
  google_drive_dir_id : Option String
  glob_sorted : List String
  geodata : Except Unit (List CoordRow)
  csv_rows : Except Unit (List (Option String))
  normalize : String → String
  non_academic_coords : List CoordRow
  api_key : String
  upload_ok : Bool

/-- Lines 98-149 of `main`, once the instructors file path is fixed: read
the geodata (a failure is caught on line 105 and reported, before the CSV
is touched); then, in the inner `try`, load and clean the CSV, aggregate,
render both maps, save the two HTML files and optionally upload.  Any
exception in the inner block is caught on line 134 and reported, so
nothing after the failing statement runs.  Returns the event trace and the
process outcome. -/
def main_after_locate (env : PyEnv) (ev : List Event)
    (instructors_file : String) : List Event × PyOutcome :=
  let name := basename instructors_file
  let base := strip_csv_ext name
  let ev := ev ++ [Event.printed (analyse_msg name)]
  match env.geodata with
  | Except.error _ => (ev ++ [Event.printed geodata_error_msg], PyOutcome.finished)
  | Except.ok geo =>
    let ev := ev ++ [Event.readInstructors instructors_file]
    match env.csv_rows with
    | Except.error _ => (ev ++ [Event.printed map_error_msg], PyOutcome.finished)
    | Except.ok raw =>
      let ev := ev ++ [Event.printed generating_msg]
      let df := drop_null_values_from_columns raw
      let df2 := df.map env.normalize
      let all_coords := geo ++ env.non_academic_coords
      let center := get_center all_coords
      let tbl := instructors_per_affiliation df2
      let rendered := generate_map tbl all_coords center
      let ev := ev ++ rendered.2.map Event.printed
      match (generate_heat_map tbl all_coords env.api_key gmaps_initial).1 with
      | Except.error _ => (ev ++ [Event.printed map_error_msg], PyOutcome.finished)
      | Except.ok _ =>
        let map_path := INSTRUCTORS_DATA_DIR ++ "map_instructors_per_affiliation_"
          ++ base ++ ".html"
        let heat_path := INSTRUCTORS_DATA_DIR ++ "heatmap_instructors_per_affiliation_"
          ++ base ++ ".html"
        let ev := ev ++ [Event.savedMapHtml map_path,
          Event.printed ("Map of instructors per affiliation saved to HTML file "
            ++ map_path ++ "\n"),
          Event.savedHeatmapHtml heat_path,
          Event.printed ("HeatMap of instructors per affiliation saved to HTML file "
            ++ heat_path)]
        match env.google_drive_dir_id with
        | none => (ev, PyOutcome.finished)
        | some _ =>
          let ev := ev ++ [Event.printed
            ("Uploading instructors per affiliation map to Google Drive " ++ map_path)]
          if env.upload_ok then
            (ev ++ [Event.uploadedMap map_path,
              Event.printed "Map uploaded to Google Drive."], PyOutcome.finished)
          else
            (ev ++ [Event.printed
              "An error occurred while uploading the map to Google Drive ..."],
              PyOutcome.finished)

/-- Embedding of `main` (lines 77-149): print progress, locate the instructors CSV —
note that `instructors_files[-1]` raises an uncaught IndexError on an
empty glob result before the emptiness check on line 92 can run — then
hand over to the located-file pipeline. -/
def main_run (env : PyEnv) : List Event × PyOutcome :=
  let ev := [Event.printed mapping_msg]
  match env.instructors_file_arg with
  | some f => main_after_locate env (ev ++ [Event.printed (arg_file_msg f)]) f
  | none =>
    let ev2 := ev ++ [Event.printed locate_msg]
    match env.glob_sorted.getLast? with
    | none => (ev2, PyOutcome.uncaughtIndexError)
    | some last =>
      if last = "" then (ev2 ++ [Event.printed no_csv_msg], PyOutcome.sysExit 1)
      else main_after_locate env ev2 last

/-- A run with no file argument and an empty discovery glob. -/
def demo_env_empty_glob : PyEnv :=
  { instructors_file_arg := none, google_drive_dir_id := none,
    glob_sorted := [], geodata := Except.ok demo_coords,
    csv_rows := Except.ok [], normalize := id,
    non_academic_coords := [], api_key := "apikey", upload_ok := true }

/-- C6 (code bug): when no instructors-file argument is given and the
discovery pattern matches no file, lines 92-94 intend to print the
`No CSV file ...` report and exit via `sys.exit(1)`, but
`instructors_files[-1]` on the empty list raises an uncaught IndexError
first: the trace stops after the two progress prints with an uncaught
IndexError, the report is never printed, `sys.exit(1)` is never reached,
and nothing is written. -/
theorem main_no_input_uncaught_indexerror :
    main_run demo_env_empty_glob =
      ([Event.printed mapping_msg, Event.printed locate_msg],
        PyOutcome.uncaughtIndexError) ∧
    Event.printed no_csv_msg ∉ (main_run demo_env_empty_glob).1 ∧
    (main_run demo_env_empty_glob).2 ≠ PyOutcome.sysExit 1 ∧
    (∀ p, Event.savedMapHtml p ∉ (main_run demo_env_empty_glob).1) := by
  have h : main_run demo_env_empty_glob =
      ([Event.printed mapping_msg, Event.printed locate_msg],
        PyOutcome.uncaughtIndexError) := rfl
  refine ⟨h, ?_, ?_, ?_⟩
  · rw [h]
    decide
  · rw [h]
    decide
  · intro p
    rw [h]
    simp

theorem main_after_locate_geodata_error (env : PyEnv) (ev : List Event)
    (f : String) (hgeo : env.geodata = Except.error ()) :
    main_after_locate env ev f =
      (ev ++ [Event.printed (analyse_msg (basename f)),
        Event.printed geodata_error_msg], PyOutcome.finished) := by
  simp only [main_after_locate, hgeo]
  simp

theorem main_run_locates (env : PyEnv) (f : String)
    (hloc : env.instructors_file_arg = some f ∨
      (env.instructors_file_arg = none ∧ env.glob_sorted.getLast? = some f ∧
        f ≠ "")) :
    ∃ ev0 : List Event, (∀ e ∈ ev0, ∃ s, e = Event.printed s) ∧
      main_run env = main_after_locate env ev0 f := by
  rcases hloc with harg | ⟨hnone, hlast, hne⟩
  · refine ⟨[Event.printed mapping_msg, Event.printed (arg_file_msg f)], ?_, ?_⟩
    · intro e he
      simp only [List.mem_cons, List.not_mem_nil, or_false] at he
      rcases he with rfl | rfl
      · exact ⟨mapping_msg, rfl⟩
      · exact ⟨arg_file_msg f, rfl⟩
    · simp [main_run, harg]
  · refine ⟨[Event.printed mapping_msg, Event.printed locate_msg], ?_, ?_⟩
    · intro e he
      simp only [List.mem_cons, List.not_mem_nil, or_false] at he
      rcases he with rfl | rfl
      · exact ⟨mapping_msg, rfl⟩
      · exact ⟨locate_msg, rfl⟩
    · simp only [main_run, hnone, hlast]
      rw [if_neg hne]
      simp

/-- C7: if reading or parsing the reference geodata file fails, the run
reports the failure and aborts there: the diagnostic is printed, the
instructors CSV is never read, and neither HTML artifact is written.  The
location hypothesis fixes any run in which an instructors file was found,
by argument or by a non-empty discovery glob. -/
theorem main_geodata_failure_aborts (env : PyEnv) (f : String)
    (hloc : env.instructors_file_arg = some f ∨
      (env.instructors_file_arg = none ∧ env.glob_sorted.getLast? = some f ∧
        f ≠ ""))
    (hgeo : env.geodata = Except.error ()) :
    (main_run env).2 = PyOutcome.finished ∧
    Event.printed geodata_error_msg ∈ (main_run env).1 ∧
    (∀ p, Event.readInstructors p ∉ (main_run env).1) ∧
    (∀ p, Event.savedMapHtml p ∉ (main_run env).1) ∧
    (∀ p, Event.savedHeatmapHtml p ∉ (main_run env).1) := by
  obtain ⟨ev0, hev0, hrun⟩ := main_run_locates env f hloc
  rw [hrun, main_after_locate_geodata_error env ev0 f hgeo]
  refine ⟨rfl, by simp, ?_, ?_, ?_⟩ <;>
    intro p hmem <;>
    rcases List.mem_append.mp hmem with hl | hr
  · obtain ⟨s, hs⟩ := hev0 _ hl
    simp at hs
  · simp at hr
  · obtain ⟨s, hs⟩ := hev0 _ hl
    simp at hs
  · simp at hr
  · obtain ⟨s, hs⟩ := hev0 _ hl
    simp at hs
  · simp at hr

/-- A run whose geodata spreadsheet cannot be read. -/
def demo_env_geodata_error : PyEnv :=
  { instructors_file_arg := some "data/instructors/carpentry-instructors_GB_2017.csv",
    google_drive_dir_id := none, glob_sorted := [],
    geodata := Except.error (),
    csv_rows := Except.ok [some "University of A"], normalize := id,
    non_academic_coords := [], api_key := "apikey", upload_ok := true }

/-- C7 witness: concrete run with a failing geodata read. -/
theorem main_geodata_failure_aborts_witness :
    (main_run demo_env_geodata_error).2 = PyOutcome.finished ∧
    Event.printed geodata_error_msg ∈ (main_run demo_env_geodata_error).1 ∧
    (∀ p, Event.readInstructors p ∉ (main_run demo_env_geodata_error).1) ∧
    (∀ p, Event.savedMapHtml p ∉ (main_run demo_env_geodata_error).1) ∧
    (∀ p, Event.savedHeatmapHtml p ∉ (main_run demo_env_geodata_error).1) :=
  main_geodata_failure_aborts demo_env_geodata_error
    "data/instructors/carpentry-instructors_GB_2017.csv" (Or.inl rfl) rfl

theorem instructors_per_affiliation_nil : instructors_per_affiliation [] = [] := by
  simp [instructors_per_affiliation]

theorem main_after_locate_empty_input (env : PyEnv) (ev : List Event)
    (f : String) (geo : List CoordRow) (raw : List (Option String))
    (hgeo : env.geodata = Except.ok geo) (hcsv : env.csv_rows = Except.ok raw)
    (hempty : drop_null_values_from_columns raw = []) :
    main_after_locate env ev f =
      (ev ++ [Event.printed (analyse_msg (basename f)),
        Event.readInstructors f, Event.printed generating_msg,
        Event.printed map_error_msg], PyOutcome.finished) := by
  simp only [main_after_locate, hgeo, hcsv, hempty, List.map_nil,
    instructors_per_affiliation_nil, generate_map_eq, List.filterMap_nil,
    generate_heat_map, heat_points_eq, heatmap_layer]
  simp

/-- C8: if the instructors file has zero rows left after dropping missing
affiliations, the run reports a rendering failure (the heat-map layer
construction rejects an empty point list) and aborts: neither the
marker-map HTML nor the heat-map HTML is written. -/
theorem main_empty_input_aborts (env : PyEnv) (f : String)
    (geo : List CoordRow) (raw : List (Option String))
    (hloc : env.instructors_file_arg = some f ∨
      (env.instructors_file_arg = none ∧ env.glob_sorted.getLast? = some f ∧
        f ≠ ""))
    (hgeo : env.geodata = Except.ok geo)
    (hcsv : env.csv_rows = Except.ok raw)
    (hempty : drop_null_values_from_columns raw = []) :
    (main_run env).2 = PyOutcome.finished ∧
    Event.printed map_error_msg ∈ (main_run env).1 ∧
    (∀ p, Event.savedMapHtml p ∉ (main_run env).1) ∧
    (∀ p, Event.savedHeatmapHtml p ∉ (main_run env).1) := by
  obtain ⟨ev0, hev0, hrun⟩ := main_run_locates env f hloc
  rw [hrun, main_after_locate_empty_input env ev0 f geo raw hgeo hcsv hempty]
  refine ⟨rfl, by simp, ?_, ?_⟩ <;> intro p hmem <;>
    rcases List.mem_append.mp hmem with hl | hr
  · obtain ⟨s, hs⟩ := hev0 _ hl
    simp at hs
  · simp at hr
  · obtain ⟨s, hs⟩ := hev0 _ hl
    simp at hs
  · simp at hr

/-- A run whose instructors CSV has only rows with missing affiliation. -/
def demo_env_empty_csv : PyEnv :=
  { instructors_file_arg := some "data/instructors/carpentry-instructors_GB_2017.csv",
    google_drive_dir_id := none, glob_sorted := [],
    geodata := Except.ok demo_coords,
    csv_rows := Except.ok [none, none], normalize := id,
    non_academic_coords := [], api_key := "apikey", upload_ok := true }

/-- C8 witness: concrete run whose cleaned table is empty. -/
theorem main_empty_input_aborts_witness :
    (main_run demo_env_empty_csv).2 = PyOutcome.finished ∧
    Event.printed map_error_msg ∈ (main_run demo_env_empty_csv).1 ∧
    (∀ p, Event.savedMapHtml p ∉ (main_run demo_env_empty_csv).1) ∧
    (∀ p, Event.savedHeatmapHtml p ∉ (main_run demo_env_empty_csv).1) :=
  main_empty_input_aborts demo_env_empty_csv
    "data/instructors/carpentry-instructors_GB_2017.csv" demo_coords
    [none, none] (Or.inl rfl) rfl rfl rfl
